import Mathlib

/-!
Shallow embedding of the feature-dev chat connector
(`src/amazonq/webview/ui/apps/featureDevChatConnector.ts`).

The connector is a message router between a chat UI and a host extension.
Outbound operations build an envelope and hand it to the injected
`sendMessageToExtension`; we model each outbound operation as the list of
envelopes it passes to that function.  The inbound entry point
`handleMessageReceive` classifies an untyped envelope by its `type` field and
invokes one of the registered callbacks; we model callback invocations as an
event trace, and the JavaScript runtime fault raised by calling an absent
(`undefined`) callback as `Except.error`.

Absent / `undefined` fields of the loosely typed JavaScript records are
modelled with `Option`.  Values the router only relays verbatim (code
reference records, follow-up option records, selection-kind tags) are
modelled as opaque strings.
-/

/-- Code-reference records are relayed verbatim by the connector; modelled
as opaque strings. -/
abbrev CodeReference := String

/-- A follow-up record (`ChatItemFollowUp` of the external UI library) as it
appears in outbound `follow-up-was-clicked` envelopes; relayed verbatim,
modelled as an opaque string. -/
abbrev ChatItemFollowUp := String

/-- One follow-up option carried in an inbound `followUps` list; relayed
verbatim into the constructed chat item, modelled as an opaque string. -/
abbrev FollowUpOption := String

/-- `ChatItemType.SYSTEM_PROMPT` of the external UI library: a fixed string
constant, opaque to the connector. -/
def ChatItemType.SYSTEM_PROMPT : String := "system-prompt"

/-- `ChatItemType.CODE_RESULT` of the external UI library: a fixed string
constant, opaque to the connector. -/
def ChatItemType.CODE_RESULT : String := "code-result"

/-- The outbound envelope (`ExtensionMessage`) as built by the outbound
operations: a flat record whose optional keys are absent (`none`) when the
source's object literal omits them or sets them to `undefined`. -/
structure ExtensionMessage where
  command : String
  tabID : Option String := none
  tabType : Option String := none
  code : Option String := none
  codeReference : Option (List CodeReference) := none
  leftPath : Option String := none
  rightPath : Option String := none
  followUp : Option ChatItemFollowUp := none
  chatMessage : Option String := none
  messageId : Option String := none
  vote : Option String := none
  deriving DecidableEq, Repr

/-- The inbound envelope (`messageData`): a `type` discriminator plus
payload fields read optimistically, any of which may be absent. -/
structure MessageData where
  type : String
  tabID : Option String := none
  message : Option String := none
  title : Option String := none
  messageType : Option String := none
  messageID : Option String := none
  triggerID : Option String := none
  conversationID : Option String := none
  canBeVoted : Option Bool := none
  followUps : Option (List FollowUpOption) := none
  filePaths : Option (List String) := none
  inProgress : Option Bool := none
  newPlaceholder : Option String := none
  enabled : Option Bool := none
  featureDevEnabled : Option Bool := none
  deriving DecidableEq, Repr

/-- The body of a constructed chat item: plain message text for a
`chatMessage` envelope, the file-paths payload for a `filePathMessage`
envelope. -/
inductive Body where
  | text (s : String)
  | paths (ps : List String)
  deriving DecidableEq, Repr

/-- The follow-up record attached to a constructed chat item: a label plus
the option list relayed from the envelope. -/
structure FollowUpRec where
  text : String
  options : List FollowUpOption
  deriving DecidableEq, Repr

/-- The chat item (`ChatItem`) constructed from an inbound `chatMessage` or
`filePathMessage` envelope. -/
structure ChatItem where
  type : Option String
  body : Option Body
  messageId : Option String
  relatedContent : Option Unit := none
  canBeVoted : Option Bool
  followUp : Option FollowUpRec
  deriving DecidableEq, Repr

/-- JavaScript nullish coalescing `a ?? b` on possibly-absent strings: the
left operand wins whenever it is present (even when it is the empty
string). -/
def coalesce (a b : Option String) : Option String :=
  match a with
  | some x => some x
  | none => b

/-- The payload of `requestGenerativeAIAnswer`. -/
structure ChatPayload where
  chatMessage : String
  deriving DecidableEq, Repr

/-- Which of the seven callback slots were supplied at construction.  The
source's `ConnectorProps` declares `onChatAnswerReceived` optional and the
other six required; at the untyped JavaScript runtime any slot can
nevertheless be absent, which this record captures uniformly. -/
structure Handlers where
  onChatAnswerReceived : Bool
  onAsyncEventProgress : Bool
  onError : Bool
  onWarning : Bool
  onUpdatePlaceholder : Bool
  onChatInputEnabled : Bool
  onUpdateAuthentication : Bool
  deriving DecidableEq, Repr

/-- All seven callback slots supplied. -/
def allHandlers : Handlers :=
  { onChatAnswerReceived := true
    onAsyncEventProgress := true
    onError := true
    onWarning := true
    onUpdatePlaceholder := true
    onChatInputEnabled := true
    onUpdateAuthentication := true }

/-- A runtime fault of inbound processing: calling an absent callback. -/
inductive Fault where
  | typeError
  deriving DecidableEq, Repr

/-- One observable effect of inbound processing: a callback invocation with
its arguments, or an outbound envelope handed to `sendMessageToExtension`. -/
inductive Event where
  | errorEvent (tabID : Option String) (message : Option String) (title : Option String)
  | warningEvent (tabID : Option String) (message : Option String) (title : Option String)
  | chatAnswerReceived (tabID : Option String) (item : ChatItem)
  | asyncEventProgress (tabID : Option String) (inProgress : Option Bool) (message : Option String)
  | updatePlaceholder (tabID : Option String) (newPlaceholder : Option String)
  | chatInputEnabled (tabID : Option String) (enabled : Option Bool)
  | updateAuthentication (featureDevEnabled : Option Bool)
  | sendToExtension (msg : ExtensionMessage)
  deriving DecidableEq, Repr

/-- An unguarded call `this.cb(args)` on a callback slot: invoking an absent
slot is a JavaScript `TypeError`; a present slot records its invocation. -/
def callRequired (present : Bool) (e : Event) : Except Fault (List Event) :=
  if present then Except.ok [e] else Except.error Fault.typeError

/-- The chat item built inside `processChatMessage`:
`type` from `messageType`; `body` from `message ?? undefined`;
`messageId` from `messageID ?? triggerID ?? ''`; `canBeVoted` verbatim;
`followUp` populated only when `followUps !== undefined` and non-empty, with
label `''` when `messageType === ChatItemType.SYSTEM_PROMPT` and the fixed
prompt string otherwise. -/
def mkChatAnswer (m : MessageData) : ChatItem :=
  { type := m.messageType
    body := m.message.map Body.text
    messageId := some ((coalesce m.messageID m.triggerID).getD "")
    relatedContent := none
    canBeVoted := m.canBeVoted
    followUp :=
      match m.followUps with
      | some fs =>
          if 0 < fs.length then
            some { text :=
                     if m.messageType = some ChatItemType.SYSTEM_PROMPT then ""
                     else "Please follow up with one of these"
                   options := fs }
          else none
      | none => none }

/-- `processChatMessage`: guarded on `onChatAnswerReceived !== undefined`;
when present, invokes it with `(messageData.tabID, answer)`. -/
def processChatMessage (h : Handlers) (m : MessageData) : Except Fault (List Event) :=
  if h.onChatAnswerReceived then
    Except.ok [Event.chatAnswerReceived m.tabID (mkChatAnswer m)]
  else Except.ok []

/-- The chat item built inside `processFilePathMessage`: fixed type
`ChatItemType.CODE_RESULT`, body from `filePaths`, `followUp: undefined`,
`canBeVoted: true`, and
`messageId` from `messageID ?? triggerID ?? conversationID`. -/
def mkFilePathAnswer (m : MessageData) : ChatItem :=
  { type := some ChatItemType.CODE_RESULT
    body := m.filePaths.map Body.paths
    messageId := coalesce (coalesce m.messageID m.triggerID) m.conversationID
    relatedContent := none
    canBeVoted := some true
    followUp := none }

/-- `processFilePathMessage`: guarded on `onChatAnswerReceived !== undefined`;
when present, invokes it with `(messageData.tabID, answer)`. -/
def processFilePathMessage (h : Handlers) (m : MessageData) : Except Fault (List Event) :=
  if h.onChatAnswerReceived then
    Except.ok [Event.chatAnswerReceived m.tabID (mkFilePathAnswer m)]
  else Except.ok []

/-- `handleMessageReceive`: the inbound dispatch, an exact-string-match
cascade on `messageData.type`, each branch returning after its one callback;
unmatched discriminators fall through to a silent return. -/
def handleMessageReceive (h : Handlers) (m : MessageData) : Except Fault (List Event) :=
  if m.type = "errorMessage" then
    callRequired h.onError (Event.errorEvent m.tabID m.message m.title)
  else if m.type = "showInvalidTokenNotification" then
    callRequired h.onWarning (Event.warningEvent m.tabID m.message m.title)
  else if m.type = "chatMessage" then
    processChatMessage h m
  else if m.type = "filePathMessage" then
    processFilePathMessage h m
  else if m.type = "asyncEventProgressMessage" then
    callRequired h.onAsyncEventProgress (Event.asyncEventProgress m.tabID m.inProgress m.message)
  else if m.type = "updatePlaceholderMessage" then
    callRequired h.onUpdatePlaceholder (Event.updatePlaceholder m.tabID m.newPlaceholder)
  else if m.type = "chatInputEnabledMessage" then
    callRequired h.onChatInputEnabled (Event.chatInputEnabled m.tabID m.enabled)
  else if m.type = "authenticationUpdateMessage" then
    callRequired h.onUpdateAuthentication (Event.updateAuthentication m.featureDevEnabled)
  else
    Except.ok []

/-- The fixed, closed set of eight recognized inbound discriminators. -/
def recognizedTypes : List String :=
  ["errorMessage", "showInvalidTokenNotification", "chatMessage", "filePathMessage",
   "asyncEventProgressMessage", "updatePlaceholderMessage", "chatInputEnabledMessage",
   "authenticationUpdateMessage"]

/-- `onCodeInsertToCursorPosition`: the envelopes it passes to
`sendMessageToExtension` (the `type` argument is accepted and unused, as in
the source). -/
def onCodeInsertToCursorPosition (tabID : String) (code : Option String)
    (type : Option String) (codeReference : Option (List CodeReference)) :
    List ExtensionMessage :=
  [{ command := "insert_code_at_cursor_position"
     tabID := some tabID
     code := code
     codeReference := codeReference
     tabType := some "featuredev" }]

/-- `onCopyCodeToClipboard`: same shape as code insertion, command
`code_was_copied_to_clipboard`. -/
def onCopyCodeToClipboard (tabID : String) (code : Option String)
    (type : Option String) (codeReference : Option (List CodeReference)) :
    List ExtensionMessage :=
  [{ command := "code_was_copied_to_clipboard"
     tabID := some tabID
     code := code
     codeReference := codeReference
     tabType := some "featuredev" }]

/-- `onOpenDiff`. -/
def onOpenDiff (tabID leftPath rightPath : String) : List ExtensionMessage :=
  [{ command := "open-diff"
     tabID := some tabID
     leftPath := some leftPath
     rightPath := some rightPath
     tabType := some "featuredev" }]

/-- `followUpClicked`. -/
def followUpClicked (tabID : String) (followUp : ChatItemFollowUp) :
    List ExtensionMessage :=
  [{ command := "follow-up-was-clicked"
     followUp := some followUp
     tabID := some tabID
     tabType := some "featuredev" }]

/-- The observable outcome of `requestGenerativeAIAnswer`: the envelopes its
promise executor passes to `sendMessageToExtension`, and whether the
executor ever calls `resolve` or `reject`. -/
structure PromiseTrace where
  sent : List ExtensionMessage
  resolved : Bool
  rejected : Bool
  deriving DecidableEq, Repr

/-- `requestGenerativeAIAnswer`: the executor sends one `chat-prompt`
envelope and never invokes `resolve` or `reject`. -/
def requestGenerativeAIAnswer (tabID : String) (payload : ChatPayload) : PromiseTrace :=
  { sent := [{ tabID := some tabID
               command := "chat-prompt"
               chatMessage := some payload.chatMessage
               tabType := some "featuredev" }]
    resolved := false
    rejected := false }

/-- `onStopChatResponse`: the envelope carries the tab id and the command
only — no `tabType` key appears in the source's object literal. -/
def onStopChatResponse (tabID : String) : List ExtensionMessage :=
  [{ command := "stop-response"
     tabID := some tabID }]

/-- `onTabOpen`. -/
def onTabOpen (tabID : String) : List ExtensionMessage :=
  [{ command := "new-tab-was-created"
     tabID := some tabID
     tabType := some "featuredev" }]

/-- `onTabRemove`. -/
def onTabRemove (tabID : String) : List ExtensionMessage :=
  [{ command := "tab-was-removed"
     tabID := some tabID
     tabType := some "featuredev" }]

/-- `onChatItemVoted`. -/
def onChatItemVoted (tabId messageId vote : String) : List ExtensionMessage :=
  [{ command := "chat-item-voted"
     tabID := some tabId
     messageId := some messageId
     vote := some vote
     tabType := some "featuredev" }]

/-- `sendFeedback` is an intentional no-op stub: nothing is sent. -/
def sendFeedback (tabId : String) (feedbackPayload : String) : List ExtensionMessage :=
  []

/-- An outbound trace consisting of exactly one envelope carrying the
caller's tab id unchanged and the fixed `tabType` tag `"featuredev"`. -/
def envelopesTagged (l : List ExtensionMessage) (t : String) : Prop :=
  l.map ExtensionMessage.tabID = [some t] ∧
  l.map ExtensionMessage.tabType = [some "featuredev"]

/-- The first non-empty string among a list of possibly absent strings,
defaulting to the empty string. -/
def firstNonEmpty : List (Option String) → String
  | [] => ""
  | none :: rest => firstNonEmpty rest
  | some s :: rest => if s = "" then firstNonEmpty rest else s

/-- The message-id fallback exactly as the claim words it (NOT as the code
computes it): the chain `messageID` then `triggerID` then `conversationID`,
where the first non-empty value wins. -/
def claimChainId (m : MessageData) : String :=
  firstNonEmpty [m.messageID, m.triggerID, m.conversationID]

/-- The documented inbound dispatch mapping of the spec's §4.1, written from
the spec's words: the one callback invocation each recognized discriminator
is documented to produce. -/
def specDocumentedEvent (m : MessageData) : Event :=
  if m.type = "errorMessage" then Event.errorEvent m.tabID m.message m.title
  else if m.type = "showInvalidTokenNotification" then
    Event.warningEvent m.tabID m.message m.title
  else if m.type = "chatMessage" then Event.chatAnswerReceived m.tabID (mkChatAnswer m)
  else if m.type = "filePathMessage" then
    Event.chatAnswerReceived m.tabID (mkFilePathAnswer m)
  else if m.type = "asyncEventProgressMessage" then
    Event.asyncEventProgress m.tabID m.inProgress m.message
  else if m.type = "updatePlaceholderMessage" then
    Event.updatePlaceholder m.tabID m.newPlaceholder
  else if m.type = "chatInputEnabledMessage" then
    Event.chatInputEnabled m.tabID m.enabled
  else Event.updateAuthentication m.featureDevEnabled

/-- The outbound envelope, if any, carried by an event. -/
def Event.sendPayload : Event → Option ExtensionMessage
  | .sendToExtension msg => some msg
  | _ => none

/-- The envelopes handed to `sendMessageToExtension` during inbound
processing (none once a fault aborts the branch). -/
def outboundOf : Except Fault (List Event) → List ExtensionMessage
  | .ok evs => evs.filterMap Event.sendPayload
  | .error _ => []

/-- C1 (counterexample): the claim says every outbound operation's envelope
carries `tabType = "featuredev"`, but the envelope emitted by
`onStopChatResponse` has no `tabType` key at all. -/
theorem c1_counterexample :
    (onStopChatResponse "tab-1").map ExtensionMessage.tabType = [none] ∧
    ([none] : List (Option String)) ≠ [some "featuredev"] :=
  ⟨rfl, by decide⟩

/-- C1 (amended): every outbound operation except `stop-response` emits a
single envelope carrying the caller's tab id unchanged and
`tabType = "featuredev"`; the `stop-response` envelope carries the tab id
unchanged but omits `tabType`. -/
theorem c1_amended (tabID : String) (code : Option String) (k : Option String)
    (cr : Option (List CodeReference)) (lp rp : String) (fu : ChatItemFollowUp)
    (payload : ChatPayload) (mid vote : String) :
    envelopesTagged (onCodeInsertToCursorPosition tabID code k cr) tabID ∧
    envelopesTagged (onCopyCodeToClipboard tabID code k cr) tabID ∧
    envelopesTagged (onOpenDiff tabID lp rp) tabID ∧
    envelopesTagged (followUpClicked tabID fu) tabID ∧
    envelopesTagged (requestGenerativeAIAnswer tabID payload).sent tabID ∧
    envelopesTagged (onTabOpen tabID) tabID ∧
    envelopesTagged (onTabRemove tabID) tabID ∧
    envelopesTagged (onChatItemVoted tabID mid vote) tabID ∧
    (onStopChatResponse tabID).map ExtensionMessage.tabID = [some tabID] ∧
    (onStopChatResponse tabID).map ExtensionMessage.tabType = [none] :=
  ⟨⟨rfl, rfl⟩, ⟨rfl, rfl⟩, ⟨rfl, rfl⟩, ⟨rfl, rfl⟩, ⟨rfl, rfl⟩, ⟨rfl, rfl⟩,
   ⟨rfl, rfl⟩, ⟨rfl, rfl⟩, rfl, rfl⟩

/-- C2 (counterexample): the claim says any omitted callback slot makes the
corresponding inbound event a silent no-op, but omitting `onError` makes an
`errorMessage` envelope fault (the unguarded call of an absent callback),
not drop silently. -/
theorem c2_counterexample :
    handleMessageReceive { allHandlers with onError := false } { type := "errorMessage" } =
      Except.error Fault.typeError ∧
    (Except.error Fault.typeError : Except Fault (List Event)) ≠ Except.ok [] :=
  ⟨rfl, fun h => Except.noConfusion h⟩

/-- C2 (amended): only the answer-received slot (`onChatAnswerReceived`) is
optional and guarded: when it is omitted, `chatMessage` and
`filePathMessage` envelopes are silently dropped with no callback and no
fault; the other six slots are required by `ConnectorProps` and are invoked
unguarded. -/
theorem c2_amended (h : Handlers) (m : MessageData)
    (hcb : h.onChatAnswerReceived = false)
    (ht : m.type = "chatMessage" ∨ m.type = "filePathMessage") :
    handleMessageReceive h m = Except.ok [] := by
  rcases ht with ht | ht <;>
    simp [handleMessageReceive, ht, processChatMessage, processFilePathMessage, hcb]

/-- C2 witness: a `chatMessage` envelope is silently dropped when
`onChatAnswerReceived` is omitted. -/
theorem c2_witness :
    handleMessageReceive { allHandlers with onChatAnswerReceived := false }
      { type := "chatMessage" } = Except.ok [] :=
  c2_amended _ _ rfl (Or.inl rfl)

/-- C3 (counterexample): the claim's chain takes the first NON-EMPTY value,
but the code uses nullish coalescing: a present-but-empty `messageID` wins
over a non-empty `triggerID`, so the produced id is `""` where the claim's
chain yields `"B"`. -/
theorem c3_counterexample :
    (mkChatAnswer { type := "chatMessage", messageID := some "", triggerID := some "B" }).messageId =
      some "" ∧
    claimChainId { type := "chatMessage", messageID := some "", triggerID := some "B" } = "B" ∧
    (some "" : Option String) ≠ some "B" :=
  ⟨rfl, rfl, by decide⟩

/-- C3 (amended): the fallback chain takes the first PRESENT (non-nullish)
value: a present `messageID` wins even when empty, else a present
`triggerID`; with both absent, a `chatMessage` item gets the empty string
(its chain never consults `conversationID`) and a `filePathMessage` item
gets `conversationID` verbatim. -/
theorem c3_amended (m : MessageData) :
    (∀ a, m.messageID = some a →
      (mkChatAnswer m).messageId = some a ∧ (mkFilePathAnswer m).messageId = some a) ∧
    (m.messageID = none → ∀ b, m.triggerID = some b →
      (mkChatAnswer m).messageId = some b ∧ (mkFilePathAnswer m).messageId = some b) ∧
    (m.messageID = none → m.triggerID = none →
      (mkChatAnswer m).messageId = some "" ∧
      (mkFilePathAnswer m).messageId = m.conversationID) := by
  refine ⟨?_, ?_, ?_⟩
  · intro a ha
    constructor <;> simp [mkChatAnswer, mkFilePathAnswer, coalesce, ha]
  · intro h1 b hb
    constructor <;> simp [mkChatAnswer, mkFilePathAnswer, coalesce, h1, hb]
  · intro h1 h2
    constructor <;> simp [mkChatAnswer, mkFilePathAnswer, coalesce, h1, h2]

/-- C3 witness: a present `messageID = "A"` wins. -/
theorem c3_witness :
    (mkChatAnswer { type := "chatMessage", messageID := some "A", triggerID := some "B" }).messageId =
      some "A" :=
  ((c3_amended { type := "chatMessage", messageID := some "A", triggerID := some "B" }).1 "A" rfl).1

/-- C4: for a `chatMessage` envelope, the constructed item's follow-up is
`none` when `followUps` is absent or empty; for a non-empty `followUps` it
holds exactly those options, labelled `""` for the system-prompt message
type and with the fixed prompt string for any other message type. -/
theorem c4_confirmed (m : MessageData) :
    ((m.followUps = none ∨ m.followUps = some []) → (mkChatAnswer m).followUp = none) ∧
    (∀ fs, m.followUps = some fs → fs ≠ [] →
      (mkChatAnswer m).followUp =
        some { text := if m.messageType = some ChatItemType.SYSTEM_PROMPT then ""
                       else "Please follow up with one of these"
               options := fs }) := by
  constructor
  · rintro (h | h) <;> simp [mkChatAnswer, h]
  · intro fs hfs hne
    simp [mkChatAnswer, hfs, List.length_pos.mpr hne]

/-- C4 witness: a non-system-prompt message with one follow-up option gets
the fixed label. -/
theorem c4_witness :
    (mkChatAnswer { type := "chatMessage", messageType := some "answer",
                    followUps := some ["opt"] }).followUp =
      some { text := "Please follow up with one of these", options := ["opt"] } := by
  have h := (c4_confirmed { type := "chatMessage", messageType := some "answer",
                            followUps := some ["opt"] }).2 ["opt"] rfl (by decide)
  simpa using h

/-- C5: a `filePathMessage` envelope (with the answer-received callback
registered) passes that callback a chat item with fixed type
`CODE_RESULT`, body equal to the envelope's `filePaths` payload, and
vote-ability forced `true`. -/
theorem c5_confirmed (h : Handlers) (m : MessageData)
    (hcb : h.onChatAnswerReceived = true) (ht : m.type = "filePathMessage") :
    handleMessageReceive h m =
      Except.ok [Event.chatAnswerReceived m.tabID (mkFilePathAnswer m)] ∧
    (mkFilePathAnswer m).type = some ChatItemType.CODE_RESULT ∧
    (mkFilePathAnswer m).body = m.filePaths.map Body.paths ∧
    (mkFilePathAnswer m).canBeVoted = some true := by
  refine ⟨?_, rfl, rfl, rfl⟩
  simp [handleMessageReceive, ht, processFilePathMessage, hcb]

/-- C5 witness: a concrete `filePathMessage` envelope. -/
theorem c5_witness :
    handleMessageReceive allHandlers { type := "filePathMessage", filePaths := some ["a.ts"] } =
      Except.ok [Event.chatAnswerReceived none
        (mkFilePathAnswer { type := "filePathMessage", filePaths := some ["a.ts"] })] :=
  (c5_confirmed allHandlers { type := "filePathMessage", filePaths := some ["a.ts"] } rfl rfl).1

/-- C6: with every callback registered, each of the eight recognized
discriminators produces exactly the one documented callback invocation —
a singleton trace equal to the §4.1 mapping — and no other. -/
theorem c6_confirmed (m : MessageData) (hm : m.type ∈ recognizedTypes) :
    handleMessageReceive allHandlers m = Except.ok [specDocumentedEvent m] := by
  simp [recognizedTypes, List.mem_cons] at hm
  rcases hm with h | h | h | h | h | h | h | h <;>
    simp [handleMessageReceive, specDocumentedEvent, h, processChatMessage,
      processFilePathMessage, callRequired, allHandlers]

/-- C6 witness: the authentication-update discriminator. -/
theorem c6_witness :
    handleMessageReceive allHandlers
        { type := "authenticationUpdateMessage", featureDevEnabled := some true } =
      Except.ok [specDocumentedEvent
        { type := "authenticationUpdateMessage", featureDevEnabled := some true }] :=
  c6_confirmed { type := "authenticationUpdateMessage", featureDevEnabled := some true }
    (by decide)

/-- C7: an envelope whose `type` matches none of the eight recognized
discriminators invokes no callback and raises no fault — the result is the
silent empty trace, for every handler configuration. -/
theorem c7_confirmed (h : Handlers) (m : MessageData) (hm : m.type ∉ recognizedTypes) :
    handleMessageReceive h m = Except.ok [] := by
  simp [recognizedTypes, List.mem_cons, not_or] at hm
  obtain ⟨h1, h2, h3, h4, h5, h6, h7, h8⟩ := hm
  simp [handleMessageReceive, h1, h2, h3, h4, h5, h6, h7, h8]

/-- C7 witness: an unknown discriminator is silently ignored. -/
theorem c7_witness :
    handleMessageReceive allHandlers { type := "unknownMessage" } = Except.ok [] :=
  c7_confirmed allHandlers { type := "unknownMessage" } (by decide)

/-- C8: `requestGenerativeAIAnswer` passes exactly one envelope to
`sendMessageToExtension` — command `chat-prompt`, the given tab id, the
payload's chat message, `tabType = "featuredev"` — and its promise executor
never resolves or rejects the returned pending result. -/
theorem c8_confirmed (tabID : String) (payload : ChatPayload) :
    (requestGenerativeAIAnswer tabID payload).sent =
      [{ command := "chat-prompt", tabID := some tabID,
         chatMessage := some payload.chatMessage, tabType := some "featuredev" }] ∧
    (requestGenerativeAIAnswer tabID payload).resolved = false ∧
    (requestGenerativeAIAnswer tabID payload).rejected = false :=
  ⟨rfl, rfl, rfl⟩

/-- C9: the chat item a `filePathMessage` envelope passes to the
answer-received callback always has follow-up `none`, even when the
envelope carries a non-empty `followUps` list. -/
theorem c9_confirmed (h : Handlers) (m : MessageData)
    (hcb : h.onChatAnswerReceived = true) (ht : m.type = "filePathMessage") :
    handleMessageReceive h m =
      Except.ok [Event.chatAnswerReceived m.tabID (mkFilePathAnswer m)] ∧
    (mkFilePathAnswer m).followUp = none := by
  refine ⟨?_, rfl⟩
  simp [handleMessageReceive, ht, processFilePathMessage, hcb]

/-- C9 witness: follow-up stays `none` even with a non-empty `followUps`
list on the envelope. -/
theorem c9_witness :
    (mkFilePathAnswer { type := "filePathMessage", followUps := some ["f1"] }).followUp = none :=
  (c9_confirmed allHandlers { type := "filePathMessage", followUps := some ["f1"] } rfl rfl).2

/-- C10: inbound processing emits no outbound envelope: for every handler
configuration and every envelope, `handleMessageReceive` hands nothing to
`sendMessageToExtension`. -/
theorem c10_confirmed (h : Handlers) (m : MessageData) :
    outboundOf (handleMessageReceive h m) = [] := by
  have hc : ∀ (b : Bool) (e : Event), e.sendPayload = none →
      outboundOf (callRequired b e) = [] := by
    intro b e he
    cases b <;> simp [callRequired, outboundOf, he]
  unfold handleMessageReceive
  split_ifs <;>
    first
      | exact hc _ _ rfl
      | (cases hcb : h.onChatAnswerReceived <;>
          simp [processChatMessage, processFilePathMessage, hcb, outboundOf, Event.sendPayload])
      | rfl
